import Mathlib

/-!
Verification of the instantly-go client library (src/instantly.go) against its
natural-language specification.

Shallow embedding conventions:
* Go `[]byte` JSON documents are modeled by the inductive `GoJson`.  JSON
  objects and Go `map[string]T` values are represented as association lists,
  considered up to key order (Go maps are unordered and `encoding/json`
  serializes map keys in sorted order); all object-level properties are stated
  through the lookup function `goLookup`, which — like Go JSON decoding of
  duplicate keys — lets the last binding win.
* `time.Time` is modeled by the wall-clock record `GoTime`; the three layout
  strings used by the source ("2006-01-02", "01-02-2006", "15:04") become the
  formatting functions `GoTime.format20060102`, `GoTime.format01022006` and
  `GoTime.format1504`, faithful for the years 0..9999 that four-digit layouts
  render by zero-padding.
* The HTTP round trip performed by `Client.call` is abstracted by a
  `Transport` oracle mapping the emitted request to either a transport error
  or a response body.  A response body is either a well-formed JSON document
  or malformed bytes.
* `json.Unmarshal(data, v)` is modeled by `jsonUnmarshal`: syntactically
  invalid documents fail first, then a nil destination pointer (`GoPtr.null`)
  fails with the InvalidUnmarshalError that Go produces for
  `Unmarshal(data, nil-pointer)`, and only then does the typed decoder run.
  Struct decoders match JSON keys exactly (the source only ever sees the
  exact lowercase tags it declares), treat a missing or null field as the Go
  zero value, and reject type mismatches, as `encoding/json` does.
* Errors are strings, as produced by `errors.New` in the source; a Go
  `(result, err)` pair with a possibly-nil pointer result becomes
  `Option result × Option GoError`.
-/

/-- Go JSON documents. -/
inductive GoJson where
  | null
  | str (s : String)
  | num (n : Int)
  | bool (b : Bool)
  | arr (elems : List GoJson)
  | obj (fields : List (String × GoJson))

/-- Errors are the strings built by errors.New in the source. -/
abbrev GoError := String

/-- Lookup of a key in a JSON object, last binding wins (Go JSON decoding of
duplicate keys keeps the last value). -/
def goLookup (fields : List (String × GoJson)) (key : String) : Option GoJson :=
  match fields with
  | [] => none
  | (k, v) :: rest =>
    match goLookup rest key with
    | some w => some w
    | none => if k = key then some v else none

/-- Go map assignment `m[k] = v` on the association-list representation:
any previous binding of `k` is removed and the new one appended.  Association
lists are considered up to key order, so this is exactly a map update. -/
def goMapSet (m : List (String × GoJson)) (k : String) (v : GoJson) :
    List (String × GoJson) :=
  m.filter (fun kv => kv.1 ≠ k) ++ [(k, v)]

/-- Decoding a JSON object into a fresh Go `map[string]interface\x7b\x7d`: every
binding is inserted in order, so for duplicate keys the last value wins. -/
def goObjToMap (fields : List (String × GoJson)) : List (String × GoJson) :=
  fields.foldl (fun m kv => goMapSet m kv.1 kv.2) []

/-- Wall-clock model of Go time.Time: the fields that the formatting layouts
and RFC3339 parsing used by the source observe. -/
structure GoTime where
  year : Int
  month : Nat
  day : Nat
  hour : Nat
  minute : Nat
  second : Nat
  nsec : Nat
  offsetMinutes : Int
deriving DecidableEq, Repr

/-- Zero-pad a natural number to two digits, as the "01", "02", "15", "04"
layout verbs do. -/
def pad2 (n : Nat) : String :=
  if n < 10 then "0" ++ toString n else toString n

/-- Zero-pad a natural number to four digits. -/
def pad4 (n : Nat) : String :=
  if n < 10 then "000" ++ toString n
  else if n < 100 then "00" ++ toString n
  else if n < 1000 then "0" ++ toString n
  else toString n

/-- Render a year for the "2006" layout verb: zero-padded to four digits,
negative years carry a leading minus sign. -/
def pad4Year (y : Int) : String :=
  if y < 0 then "-" ++ pad4 y.natAbs else pad4 y.natAbs

/-- Go t.Format("2006-01-02"), the date layout used by the schedule
conversion. -/
def GoTime.format20060102 (t : GoTime) : String :=
  pad4Year t.year ++ "-" ++ pad2 t.month ++ "-" ++ pad2 t.day

/-- Go t.Format("01-02-2006"), the date layout used by GetCampaignCount. -/
def GoTime.format01022006 (t : GoTime) : String :=
  pad2 t.month ++ "-" ++ pad2 t.day ++ "-" ++ pad4Year t.year

/-- Go t.Format("15:04"), the time-of-day layout used by the schedule
conversion. -/
def GoTime.format1504 (t : GoTime) : String :=
  pad2 t.hour ++ ":" ++ pad2 t.minute

/-- Zero value of time.Time: January 1, year 1, 00:00:00 UTC. -/
def zeroGoTime : GoTime := ⟨1, 1, 1, 0, 0, 0, 0, 0⟩

/-- Leap-year test of the Go time package. -/
def isLeapYear (y : Int) : Bool :=
  y % 4 = 0 && (y % 100 ≠ 0 || y % 400 = 0)

/-- Number of days of a month, as Go time.Parse uses to validate a day. -/
def daysInMonth (year : Int) (month : Nat) : Nat :=
  match month with
  | 1 => 31
  | 2 => if isLeapYear year then 29 else 28
  | 3 => 31
  | 4 => 30
  | 5 => 31
  | 6 => 30
  | 7 => 31
  | 8 => 31
  | 9 => 30
  | 10 => 31
  | 11 => 30
  | 12 => 31
  | _ => 0

/-- Numeric value of a decimal digit character. -/
def digitVal (c : Char) : Nat := c.toNat - '0'.toNat

/-- Two-digit decimal value. -/
def twoDigits (a b : Char) : Nat := 10 * digitVal a + digitVal b

/-- Parse the timezone suffix of an RFC3339 timestamp, layout verb "Z07:00":
either the literal Z or a signed hh:mm offset, returned in minutes. -/
def parseZoneChars : List Char → Option Int
  | ['Z'] => some 0
  | [c, h1, h2, ':', m1, m2] =>
    if (c = '+' || c = '-') && [h1, h2, m1, m2].all Char.isDigit then
      let mins : Int := (twoDigits h1 h2 : Nat) * 60 + (twoDigits m1 m2 : Nat)
      some (if c = '-' then -mins else mins)
    else none
  | _ => none

/-- Nanoseconds denoted by a fractional-second digit string; Go keeps at most
nine digits of precision. -/
def nsecOfDigits (ds : List Char) : Nat :=
  let first9 := ds.take 9
  let value := first9.foldl (fun acc c => 10 * acc + digitVal c) 0
  value * 10 ^ (9 - first9.length)

/-- Parse the optional fractional seconds plus mandatory zone that follow the
seconds field of an RFC3339 timestamp. -/
def parseFracZone (cs : List Char) : Option (Nat × Int) :=
  match cs with
  | '.' :: rest =>
    let ds := rest.takeWhile Char.isDigit
    let after := rest.dropWhile Char.isDigit
    if ds.isEmpty then none
    else
      match parseZoneChars after with
      | some off => some (nsecOfDigits ds, off)
      | none => none
  | other =>
    match parseZoneChars other with
    | some off => some (0, off)
    | none => none

/-- Go time.Parse(time.RFC3339, s): fixed-position date and time digits,
then optional fractional seconds and a zone, with the range validation that
Parse performs (month 1-12, day within the month, hour below 24, minute and
second below 60). -/
def parseRFC3339 (s : String) : Option GoTime :=
  match s.toList with
  | y1 :: y2 :: y3 :: y4 :: '-' :: m1 :: m2 :: '-' :: d1 :: d2 :: 'T' ::
      h1 :: h2 :: ':' :: mi1 :: mi2 :: ':' :: s1 :: s2 :: rest =>
    if [y1, y2, y3, y4, m1, m2, d1, d2, h1, h2, mi1, mi2, s1, s2].all Char.isDigit then
      let year : Int := ((1000 * digitVal y1 + 100 * digitVal y2 +
        10 * digitVal y3 + digitVal y4 : Nat) : Int)
      let month := twoDigits m1 m2
      let day := twoDigits d1 d2
      let hour := twoDigits h1 h2
      let minute := twoDigits mi1 mi2
      let second := twoDigits s1 s2
      match parseFracZone rest with
      | some (nsec, off) =>
        if 1 ≤ month && month ≤ 12 && 1 ≤ day && day ≤ daysInMonth year month &&
            hour ≤ 23 && minute ≤ 59 && second ≤ 59 then
          some ⟨year, month, day, hour, minute, second, nsec, off⟩
        else none
      | none => none
    else none
  | _ => none

/-- Token-bucket rate limiter handle (go.uber.org/ratelimit.Limiter), recorded
by its construction arguments: permitted events per interval, interval in
nanoseconds. -/
structure RateLimiter where
  rate : Nat
  per : Nat
deriving DecidableEq, Repr

/-- ratelimit.New(rate, ratelimit.Per(interval)). -/
def ratelimitNew (rate per : Nat) : RateLimiter := ⟨rate, per⟩

/-- time.Second in nanoseconds. -/
def timeSecond : Nat := 1000000000

/-- An http.Client handle: either the package-level http.DefaultClient or a
caller-supplied client. -/
inductive HttpClient where
  | std
  | custom (id : Nat)
deriving DecidableEq, Repr

/-- The options struct of the source; the Go pointer fields rateLimit and
httpClient (nil until set) become Option values. -/
structure options where
  host : String
  apiVersion : Int
  rateLimit : Option RateLimiter
  httpClient : Option HttpClient
deriving DecidableEq, Repr

/-- A construction option.  The source type is a closure `func(*options)
error`; the library offers exactly these four constructors, so the closure is
modeled by this inductive together with `applyOption`. -/
inductive GoOption where
  | withHost (host : String)
  | withApiVersion (version : Int)
  | withRateLimit (rl : RateLimiter)
  | withHttpClient (hc : HttpClient)
deriving DecidableEq, Repr

/-- Validity check performed by WithHost: http.NewRequest("GET",
"https://"++host, nil) succeeds.  Modeled for hosts made of URL-safe
characters (letters, digits, dots, hyphens — every host any claim mentions,
including the empty string, which net/url parses without error). -/
def hostRequestOk (host : String) : Bool :=
  host.toList.all (fun c => c.isAlphanum || c = '.' || c = '-')

/-- Effect of one option closure on the options struct (WithHost,
WithApiVersion, WithRateLimit, WithHttpClient of the source). -/
def applyOption (o : options) : GoOption → Except GoError options
  | .withHost h =>
    if hostRequestOk h then .ok { o with host := h }
    else .error "invalid host: parse error"
  | .withApiVersion v =>
    if v < 1 then .error ("invalid api version: " ++ toString v)
    else .ok { o with apiVersion := v }
  | .withRateLimit rl => .ok { o with rateLimit := some rl }
  | .withHttpClient hc => .ok { o with httpClient := some hc }

/-- The option loop of New: apply each option in order, stopping at the first
error. -/
def applyOptions : options → List GoOption → Except GoError options
  | o, [] => .ok o
  | o, opt :: rest =>
    match applyOption o opt with
    | .error e => .error e
    | .ok o' => applyOptions o' rest

/-- The default-filling block of New: empty host, zero version, nil rate
limiter and nil http client are replaced by the documented defaults. -/
def setDefaults (o : options) : options :=
  let o1 := if o.host = "" then { o with host := "api.instantly.ai" } else o
  let o2 := if o1.apiVersion = 0 then { o1 with apiVersion := 1 } else o1
  let o3 :=
    if o2.rateLimit.isNone then
      { o2 with rateLimit := some (ratelimitNew 10 timeSecond) }
    else o2
  let o4 :=
    if o3.httpClient.isNone then { o3 with httpClient := some HttpClient.std }
    else o3
  o4

/-- The Client struct of the source. -/
structure Client where
  apiKey : String
  options : options
deriving DecidableEq, Repr

/-- Zero value of the options struct, as allocated at the top of New. -/
def zeroOptions : options :=
  { host := "", apiVersion := 0, rateLimit := none, httpClient := none }

/-- New(apiKey, opts...): run the options over the zero options struct,
propagate the first option error (returning a nil client), then fill
defaults. -/
def New (apiKey : String) (opts : List GoOption) : Except GoError Client :=
  match applyOptions zeroOptions opts with
  | .error e => .error e
  | .ok o => .ok { apiKey := apiKey, options := setDefaults o }

/-- The query struct of the source: one key/value pair of a URL query
string. -/
structure query where
  key : String
  value : String
deriving DecidableEq, Repr

/-- param(key, value). -/
def param (key value : String) : query := ⟨key, value⟩

/-- buildBodyUrl: https scheme, host, versioned api prefix, path. -/
def Client.buildBodyUrl (c : Client) (path : String) : String :=
  "https://" ++ c.options.host ++ "/api/v" ++ toString c.options.apiVersion ++
    "/" ++ path

/-- buildQueryUrl: the body URL, then api_key, then every supplied parameter
in order, each appended as an ampersand-separated key=value pair. -/
def Client.buildQueryUrl (c : Client) (path : String) (params : List query) :
    String :=
  params.foldl (fun url p => url ++ "&" ++ p.key ++ "=" ++ p.value)
    (c.buildBodyUrl path ++ "?api_key=" ++ c.apiKey)

/-- A response body handed back by the HTTP layer: either a well-formed JSON
document or malformed bytes. -/
inductive Body where
  | json (v : GoJson)
  | malformed (raw : String)

/-- Oracle for the network round trip performed by Client.call: maps the
emitted GET url, or POST url and JSON body, to a transport error or a
response body. -/
structure Transport where
  get : String → Except GoError Body
  post : String → GoJson → Except GoError Body

/-- A destination pointer handed to json.Unmarshal: nil (never allocated) or
pointing at allocated storage. -/
inductive GoPtr where
  | null
  | alloc

/-- json.Unmarshal(data, target) with a typed decoder dec: malformed input
fails with a syntax-level error first, a nil destination pointer fails with
the InvalidUnmarshalError Go raises for Unmarshal into nil, and otherwise the
typed decoder runs on the document. -/
def jsonUnmarshal (dec : GoJson → Except GoError α) (target : GoPtr)
    (b : Body) : Except GoError α :=
  match b with
  | .malformed raw => .error ("invalid character in " ++ raw)
  | .json v =>
    match target with
    | .null => .error "json: Unmarshal(nil)"
    | .alloc => dec v

/-- Client.get: build the query URL and execute the request, wrapping any
transport failure. -/
def Client.get (c : Client) (t : Transport) (path : String)
    (params : List query) : Except GoError Body :=
  match t.get (c.buildQueryUrl path params) with
  | .error e => .error ("failed to execute request: " ++ e)
  | .ok data => .ok data

/-- The body-building half of Client.post: marshal the payload, decode it
back into a map (which fails when the payload is not a JSON object), and
assign the api_key key.  Kept as its own definition so the wire body that
post hands to the transport can be named in theorems. -/
def Client.postWireBody (c : Client) (body : GoJson) :
    Except GoError GoJson :=
  match body with
  | .obj fields =>
    .ok (.obj (goMapSet (goObjToMap fields) "api_key" (.str c.apiKey)))
  | _ => .error "failed to unmarshal body: cannot decode into map"

/-- Client.post: build the wire body, then POST it to the body URL, wrapping
any transport failure. -/
def Client.post (c : Client) (t : Transport) (path : String) (body : GoJson) :
    Except GoError Body :=
  match c.postWireBody body with
  | .error e => .error e
  | .ok wire =>
    match t.post (c.buildBodyUrl path) wire with
    | .error e => .error ("failed to execute request: " ++ e)
    | .ok data => .ok data

/-- Decode one string-typed struct field: a missing or null key leaves the
zero value, a string value is taken, anything else is a type error — the
behavior of encoding/json for a string field. -/
def jStr (fields : List (String × GoJson)) (key : String) :
    Except GoError String :=
  match goLookup fields key with
  | none => .ok ""
  | some .null => .ok ""
  | some (.str s) => .ok s
  | some _ => .error ("cannot unmarshal field " ++ key)

/-- Decode one int-typed struct field. -/
def jInt (fields : List (String × GoJson)) (key : String) :
    Except GoError Int :=
  match goLookup fields key with
  | none => .ok 0
  | some .null => .ok 0
  | some (.num n) => .ok n
  | some _ => .error ("cannot unmarshal field " ++ key)

/-- Decode one bool-typed struct field. -/
def jBool (fields : List (String × GoJson)) (key : String) :
    Except GoError Bool :=
  match goLookup fields key with
  | none => .ok false
  | some .null => .ok false
  | some (.bool b) => .ok b
  | some _ => .error ("cannot unmarshal field " ++ key)

/-- Decode one map[string]string-typed struct field. -/
def jStrMap (fields : List (String × GoJson)) (key : String) :
    Except GoError (List (String × String)) :=
  match goLookup fields key with
  | none => .ok []
  | some .null => .ok []
  | some (.obj kvs) =>
    kvs.mapM (fun kv =>
      match kv.2 with
      | .str s => .ok (kv.1, s)
      | _ => .error ("cannot unmarshal field " ++ key))
  | some _ => .error ("cannot unmarshal field " ++ key)

/-- Decoder for the one-field status response structs (setCampaignNameResponse
and its per-endpoint twins, all declared as a single Status string field with
the json tag "status"). -/
def decodeStatus (v : GoJson) : Except GoError String :=
  match v with
  | .null => .ok ""
  | .obj fields => jStr fields "status"
  | _ => .error "cannot unmarshal into status struct"

/-- Marshaled form of setCampaignNamePayload (json tags campaign_id, name). -/
def setCampaignNamePayload (campaignId name : String) : GoJson :=
  .obj [("campaign_id", .str campaignId), ("name", .str name)]

/-- SetCampaignName: POST campaign/set/name, decode the status response, and
treat any status other than success as an error.  The returned value models
the Go error result: none is a nil error. -/
def Client.SetCampaignName (c : Client) (t : Transport)
    (campaignId campaignName : String) : Option GoError :=
  match c.post t "campaign/set/name"
      (setCampaignNamePayload campaignId campaignName) with
  | .error e => some ("failed to set campaign name: " ++ e)
  | .ok data =>
    match jsonUnmarshal decodeStatus .alloc data with
    | .error e => some ("failed to unmarshal campaign name: " ++ e)
    | .ok s =>
      if s ≠ "success" then some ("failed to set campaign name: " ++ s)
      else none

/-- Marshaled form of launchCampaignPayload. -/
def launchCampaignPayload (campaignId : String) : GoJson :=
  .obj [("campaign_id", .str campaignId)]

/-- LaunchCampaign: POST campaign/launch and check the status response. -/
def Client.LaunchCampaign (c : Client) (t : Transport) (campaignId : String) :
    Option GoError :=
  match c.post t "campaign/launch" (launchCampaignPayload campaignId) with
  | .error e => some ("failed to launch campaign: " ++ e)
  | .ok data =>
    match jsonUnmarshal decodeStatus .alloc data with
    | .error e => some ("failed to unmarshal campaign launch: " ++ e)
    | .ok s =>
      if s ≠ "success" then some ("failed to launch campaign: " ++ s)
      else none

/-- Marshaled form of pauseCampaignPayload. -/
def pauseCampaignPayload (campaignId : String) : GoJson :=
  .obj [("campaign_id", .str campaignId)]

/-- PauseCampaign: POST campaign/pause and check the status response. -/
def Client.PauseCampaign (c : Client) (t : Transport) (campaignId : String) :
    Option GoError :=
  match c.post t "campaign/pause" (pauseCampaignPayload campaignId) with
  | .error e => some ("failed to pause campaign: " ++ e)
  | .ok data =>
    match jsonUnmarshal decodeStatus .alloc data with
    | .error e => some ("failed to unmarshal campaign pause: " ++ e)
    | .ok s =>
      if s ≠ "success" then some ("failed to pause campaign: " ++ s)
      else none

/-- Marshaled form of enableWarmupPayload. -/
def enableWarmupPayload (email : String) : GoJson :=
  .obj [("email", .str email)]

/-- EnableWarmup: POST account/warmup/enable and check the status response. -/
def Client.EnableWarmup (c : Client) (t : Transport) (email : String) :
    Option GoError :=
  match c.post t "account/warmup/enable" (enableWarmupPayload email) with
  | .error e => some ("failed to enable warmup: " ++ e)
  | .ok data =>
    match jsonUnmarshal decodeStatus .alloc data with
    | .error e => some ("failed to unmarshal enable warmup: " ++ e)
    | .ok s => if s ≠ "success" then some "failed to enable warmup" else none

/-- Marshaled form of deleteAccountPayload. -/
def deleteAccountPayload (email : String) : GoJson :=
  .obj [("email", .str email)]

/-- DeleteAccount: POST account/delete and check the status response. -/
def Client.DeleteAccount (c : Client) (t : Transport) (email : String) :
    Option GoError :=
  match c.post t "account/delete" (deleteAccountPayload email) with
  | .error e => some ("failed to delete account: " ++ e)
  | .ok data =>
    match jsonUnmarshal decodeStatus .alloc data with
    | .error e => some ("failed to unmarshal delete account: " ++ e)
    | .ok s => if s ≠ "success" then some "failed to delete account" else none

/-- Marshaled form of markAccountAsFixedPayload: its single Email field has
the json tag email with omitempty, so an empty email marshals to the empty
object. -/
def markAccountAsFixedPayload (email : String) : GoJson :=
  if email = "" then .obj [] else .obj [("email", .str email)]

/-- MarkAllAccountsAsFixed: POST account/mark_fixed with the zero payload
(which marshals to an empty JSON object) and check the status response. -/
def Client.MarkAllAccountsAsFixed (c : Client) (t : Transport) :
    Option GoError :=
  match c.post t "account/mark_fixed" (markAccountAsFixedPayload "") with
  | .error e => some ("failed to mark accounts as fixed: " ++ e)
  | .ok data =>
    match jsonUnmarshal decodeStatus .alloc data with
    | .error e => some ("failed to unmarshal mark accounts as fixed: " ++ e)
    | .ok s =>
      if s ≠ "success" then some "failed to mark accounts as fixed" else none

/-- The getCampaignSummaryResponse struct of the source. -/
structure getCampaignSummaryResponse where
  CampaignID : String
  CampaignName : String
  TotalLeads : Int
  Contacted : Int
  LeadsWhoRead : Int
  LeadsWhoReplied : Int
  Bounced : String
  Unsubscribed : String
  Completed : Int
deriving DecidableEq, Repr

/-- Typed decoder for getCampaignSummaryResponse (json tags campaign_id,
campaign_name, total_leads, contacted, leads_who_read, leads_who_replied,
bounced, unsubscribed, completed). -/
def decodeGetCampaignSummaryResponse (v : GoJson) :
    Except GoError getCampaignSummaryResponse :=
  match v with
  | .null => .ok ⟨"", "", 0, 0, 0, 0, "", "", 0⟩
  | .obj fields => do
    let campaignID ← jStr fields "campaign_id"
    let campaignName ← jStr fields "campaign_name"
    let totalLeads ← jInt fields "total_leads"
    let contacted ← jInt fields "contacted"
    let leadsWhoRead ← jInt fields "leads_who_read"
    let leadsWhoReplied ← jInt fields "leads_who_replied"
    let bounced ← jStr fields "bounced"
    let unsubscribed ← jStr fields "unsubscribed"
    let completed ← jInt fields "completed"
    .ok ⟨campaignID, campaignName, totalLeads, contacted, leadsWhoRead,
      leadsWhoReplied, bounced, unsubscribed, completed⟩
  | _ => .error "cannot unmarshal into campaign summary struct"

/-- GetCampaignSummary: GET campaign/summary, then unmarshal into the named
return value summary — a pointer that is never allocated, so Unmarshal
receives nil.  Were the unmarshal branch ever to succeed, the source would
still return the nil summary pointer, hence the none result there. -/
def Client.GetCampaignSummary (c : Client) (t : Transport)
    (campaignId : String) :
    Option getCampaignSummaryResponse × Option GoError :=
  match c.get t "campaign/summary" [param "campaign_id" campaignId] with
  | .error e => (none, some ("failed to get campaign summary: " ++ e))
  | .ok data =>
    match jsonUnmarshal decodeGetCampaignSummaryResponse .null data with
    | .error e => (none, some ("failed to unmarshal campaign summary: " ++ e))
    | .ok _ => (none, none)

/-- The getCampaignCountResponse struct of the source. -/
structure getCampaignCountResponse where
  CampaignID : String
  CampaignName : String
  TotalEmailsSent : Int
  EmailsRead : Int
  NewLeadsContacted : Int
  LeadsReplied : Int
  LeadsRead : Int
deriving DecidableEq, Repr

/-- Typed decoder for getCampaignCountResponse. -/
def decodeGetCampaignCountResponse (v : GoJson) :
    Except GoError getCampaignCountResponse :=
  match v with
  | .null => .ok ⟨"", "", 0, 0, 0, 0, 0⟩
  | .obj fields => do
    let campaignID ← jStr fields "campaign_id"
    let campaignName ← jStr fields "campaign_name"
    let totalEmailsSent ← jInt fields "total_emails_sent"
    let emailsRead ← jInt fields "emails_read"
    let newLeadsContacted ← jInt fields "new_leads_contacted"
    let leadsReplied ← jInt fields "leads_replied"
    let leadsRead ← jInt fields "leads_read"
    .ok ⟨campaignID, campaignName, totalEmailsSent, emailsRead,
      newLeadsContacted, leadsReplied, leadsRead⟩
  | _ => .error "cannot unmarshal into campaign count struct"

/-- The query-parameter list GetCampaignCount builds: campaign_id, the start
date formatted with the "01-02-2006" layout, and — when an end date is
present — the end date in the same layout. -/
def getCampaignCountQueries (campaignId : String) (startDate : GoTime)
    (endDate : Option GoTime) : List query :=
  let startDateStr := startDate.format01022006
  let endDateStr :=
    match endDate with
    | none => ""
    | some e => e.format01022006
  let queries := [param "campaign_id" campaignId,
    param "start_date" startDateStr]
  if endDateStr ≠ "" then queries ++ [param "end_date" endDateStr]
  else queries

/-- GetCampaignCount: GET analytics/campaign/count with the date query
parameters, then unmarshal into the named return value count — again a
never-allocated pointer, so Unmarshal receives nil. -/
def Client.GetCampaignCount (c : Client) (t : Transport) (campaignId : String)
    (startDate : GoTime) (endDate : Option GoTime) :
    Option getCampaignCountResponse × Option GoError :=
  match c.get t "analytics/campaign/count"
      (getCampaignCountQueries campaignId startDate endDate) with
  | .error e => (none, some ("failed to get campaign count: " ++ e))
  | .ok data =>
    match jsonUnmarshal decodeGetCampaignCountResponse .null data with
    | .error e => (none, some ("failed to unmarshal campaign count: " ++ e))
    | .ok _ => (none, none)

/-- The exported Lead struct; every field except Email carries omitempty. -/
structure Lead where
  Email : String
  FirstName : String := ""
  LastName : String := ""
  CompanyName : String := ""
  Personalization : String := ""
  Phone : String := ""
  Website : String := ""
  CustomVariables : List (String × String) := []
deriving DecidableEq, Repr

/-- Marshaled form of a Lead: email always, the other fields only when they
are not their zero value, per their omitempty tags. -/
def Lead.marshal (l : Lead) : GoJson :=
  .obj ([("email", GoJson.str l.Email)] ++
    (if l.FirstName = "" then [] else [("first_name", GoJson.str l.FirstName)]) ++
    (if l.LastName = "" then [] else [("last_name", GoJson.str l.LastName)]) ++
    (if l.CompanyName = "" then [] else [("company_name", GoJson.str l.CompanyName)]) ++
    (if l.Personalization = "" then []
     else [("personalization", GoJson.str l.Personalization)]) ++
    (if l.Phone = "" then [] else [("phone", GoJson.str l.Phone)]) ++
    (if l.Website = "" then [] else [("website", GoJson.str l.Website)]) ++
    (if l.CustomVariables.isEmpty then []
     else [("custom_variables",
       GoJson.obj (l.CustomVariables.map (fun kv => (kv.1, GoJson.str kv.2))))]))

/-- Marshaled form of addLeadsToCampaignPayload. -/
def addLeadsToCampaignPayload (campaignId : String) (leads : List Lead) :
    GoJson :=
  .obj [("campaign_id", .str campaignId),
    ("leads", .arr (leads.map Lead.marshal))]

/-- The addLeadsToCampaignResponse struct of the source. -/
structure addLeadsToCampaignResponse where
  Status : String
  TotalSent : Int
  LeadsUploaded : Int
  AlreadyInCampaign : String
  InvalidEmailCount : String
  DuplicateEmailCount : String
  RemainingInPlan : Int
deriving DecidableEq, Repr

/-- Typed decoder for addLeadsToCampaignResponse. -/
def decodeAddLeadsToCampaignResponse (v : GoJson) :
    Except GoError addLeadsToCampaignResponse :=
  match v with
  | .null => .ok ⟨"", 0, 0, "", "", "", 0⟩
  | .obj fields => do
    let status ← jStr fields "status"
    let totalSent ← jInt fields "total_sent"
    let leadsUploaded ← jInt fields "leads_uploaded"
    let alreadyInCampaign ← jStr fields "already_in_campaign"
    let invalidEmailCount ← jStr fields "invalid_email_count"
    let duplicateEmailCount ← jStr fields "duplicate_email_count"
    let remainingInPlan ← jInt fields "remaining_in_plan"
    .ok ⟨status, totalSent, leadsUploaded, alreadyInCampaign,
      invalidEmailCount, duplicateEmailCount, remainingInPlan⟩
  | _ => .error "cannot unmarshal into add leads struct"

/-- AddLeadsToCampaign: POST lead/add, then unmarshal into the named return
value response — a never-allocated pointer, so Unmarshal receives nil. -/
def Client.AddLeadsToCampaign (c : Client) (t : Transport)
    (campaignId : String) (leads : List Lead) :
    Option addLeadsToCampaignResponse × Option GoError :=
  match c.post t "lead/add" (addLeadsToCampaignPayload campaignId leads) with
  | .error e => (none, some ("failed to add leads to campaign: " ++ e))
  | .ok data =>
    match jsonUnmarshal decodeAddLeadsToCampaignResponse .null data with
    | .error e =>
      (none, some ("failed to unmarshal add leads to campaign: " ++ e))
    | .ok _ => (none, none)

/-- One element of getLeadFromCampaignResponse (the anonymous struct of the
source slice type): the raw lead as decoded, timestamp still a string. -/
structure getLeadFromCampaignItem where
  Id : String
  Timestamp : String
  Campaign : String
  Status : Int
  Contact : String
  EmailOpened : Bool
  EmailReplied : Bool
  LeadData : List (String × String)
  CampaignName : String
deriving DecidableEq, Repr

/-- Typed decoder for one element of getLeadFromCampaignResponse. -/
def decodeGetLeadItem (v : GoJson) :
    Except GoError getLeadFromCampaignItem :=
  match v with
  | .null => .ok ⟨"", "", "", 0, "", false, false, [], ""⟩
  | .obj fields => do
    let id ← jStr fields "id"
    let timestamp ← jStr fields "timestamp_created"
    let campaign ← jStr fields "campaign"
    let status ← jInt fields "status"
    let contact ← jStr fields "contact"
    let emailOpened ← jBool fields "email_opened"
    let emailReplied ← jBool fields "email_replied"
    let leadData ← jStrMap fields "lead_data"
    let campaignName ← jStr fields "campaign_name"
    .ok ⟨id, timestamp, campaign, status, contact, emailOpened, emailReplied,
      leadData, campaignName⟩
  | _ => .error "cannot unmarshal into lead struct"

/-- Typed decoder for getLeadFromCampaignResponse, a JSON array of lead
elements; a null document leaves the nil slice, of length zero. -/
def decodeGetLeadFromCampaignResponse (v : GoJson) :
    Except GoError (List getLeadFromCampaignItem) :=
  match v with
  | .null => .ok []
  | .arr elems => elems.mapM decodeGetLeadItem
  | _ => .error "cannot unmarshal into lead slice"

/-- The internalLead struct of the source: the lead with its timestamp parsed
into a time value. -/
structure internalLead where
  Id : String
  Timestamp : GoTime
  Campaign : String
  Status : Int
  Contact : String
  EmailOpened : Bool
  EmailReplied : Bool
  LeadData : List (String × String)
  CampaignName : String
deriving DecidableEq, Repr

/-- Zero value of internalLead, as returned alongside every error of
GetLeadFromCampaign. -/
def zeroInternalLead : internalLead :=
  ⟨"", zeroGoTime, "", 0, "", false, false, [], ""⟩

/-- GetLeadFromCampaign: GET lead/get with campaign_id and email, decode the
array response, demand exactly one element, and parse its RFC3339 creation
timestamp. -/
def Client.GetLeadFromCampaign (c : Client) (t : Transport)
    (campaignId email : String) : internalLead × Option GoError :=
  let lead := zeroInternalLead
  match c.get t "lead/get"
      [param "campaign_id" campaignId, param "email" email] with
  | .error e => (lead, some ("failed to get lead from campaign: " ++ e))
  | .ok data =>
    match jsonUnmarshal decodeGetLeadFromCampaignResponse .alloc data with
    | .error e =>
      (lead, some ("failed to unmarshal get lead from campaign: " ++ e))
    | .ok res =>
      match res with
      | [] => (lead, some "no lead found")
      | item :: [] =>
        match parseRFC3339 item.Timestamp with
        | none => (lead, some "failed to parse timestamp: parsing error")
        | some ts =>
          ({ Id := item.Id, Timestamp := ts, Campaign := item.Campaign,
             Status := item.Status, Contact := item.Contact,
             EmailOpened := item.EmailOpened,
             EmailReplied := item.EmailReplied, LeadData := item.LeadData,
             CampaignName := item.CampaignName }, none)
      | _ :: _ :: _ => (lead, some "multiple leads found")

/-- Marshaled form of updateLeadVariablePayload; the Variables map carries
arbitrary JSON values (map[string]interface). -/
def updateLeadVariablePayload (campaignId email : String)
    (vars : List (String × GoJson)) : GoJson :=
  .obj [("campaign_id", .str campaignId), ("email", .str email),
    ("variables", .obj vars)]

/-- Endpoint path of UpdateLeadVariable. -/
def updateLeadVariablePath : String := "lead/data/update"

/-- UpdateLeadVariable: POST lead/data/update and check the status
response. -/
def Client.UpdateLeadVariable (c : Client) (t : Transport)
    (campaignId email : String) (vars : List (String × GoJson)) :
    Option GoError :=
  match c.post t updateLeadVariablePath
      (updateLeadVariablePayload campaignId email vars) with
  | .error e => some ("failed to update lead variable: " ++ e)
  | .ok data =>
    match jsonUnmarshal decodeStatus .alloc data with
    | .error e => some ("failed to unmarshal update lead variable: " ++ e)
    | .ok s =>
      if s ≠ "success" then some "failed to update lead variable" else none

/-- Marshaled form of deleteLeadVariablesPayload; the Variables field is a
string slice, marshaled as a JSON array of names. -/
def deleteLeadVariablesPayload (campaignId email : String)
    (vars : List String) : GoJson :=
  .obj [("campaign_id", .str campaignId), ("email", .str email),
    ("variables", .arr (vars.map GoJson.str))]

/-- Endpoint path of DeleteLeadVariables. -/
def deleteLeadVariablesPath : String := "lead/data/update"

/-- DeleteLeadVariables: POST lead/data/update and check the status
response. -/
def Client.DeleteLeadVariables (c : Client) (t : Transport)
    (campaignId email : String) (vars : List String) :
    Option GoError :=
  match c.post t deleteLeadVariablesPath
      (deleteLeadVariablesPayload campaignId email vars) with
  | .error e => some ("failed to delete lead variables: " ++ e)
  | .ok data =>
    match jsonUnmarshal decodeStatus .alloc data with
    | .error e => some ("failed to unmarshal delete lead variables: " ++ e)
    | .ok s =>
      if s ≠ "success" then some "failed to delete lead variables" else none

/-- Go time.Weekday: Sunday is 0. -/
inductive GoWeekday where
  | sunday
  | monday
  | tuesday
  | wednesday
  | thursday
  | friday
  | saturday
deriving DecidableEq, Repr

/-- int(day) for a time.Weekday. -/
def GoWeekday.toInt : GoWeekday → Nat
  | .sunday => 0
  | .monday => 1
  | .tuesday => 2
  | .wednesday => 3
  | .thursday => 4
  | .friday => 5
  | .saturday => 6

/-- A time.Location pointer, observed only through its String() name. -/
structure GoLocation where
  name : String
deriving DecidableEq, Repr

/-- The exported Timing struct: native from/to times of day. -/
structure Timing where
  From : GoTime
  To : GoTime
deriving DecidableEq, Repr

/-- The exported CampaignSchedule struct; the Days map (Go iterates it in
unspecified order) is represented as an association list. -/
structure CampaignSchedule where
  Name : String
  Days : List (GoWeekday × Bool)
  Timezone : GoLocation
  ScheduleTiming : Timing
deriving DecidableEq, Repr

/-- The internalSetCampaignSchedulePayload struct: native times, optional end
date. -/
structure internalSetCampaignSchedulePayload where
  CampaignId : String
  StartDate : GoTime
  EndDate : Option GoTime
  Schedules : List CampaignSchedule
deriving DecidableEq, Repr

/-- The wire-form timing struct (json tags from, to). -/
structure timing where
  From : String
  To : String
deriving DecidableEq, Repr

/-- The wire-form campaignSchedule struct. -/
structure campaignSchedule where
  Name : String
  Days : List (String × Bool)
  Timezone : String
  ScheduleTiming : timing
deriving DecidableEq, Repr

/-- The wire-form setCampaignSchedulePayload struct (EndDate empty means the
omitempty tag drops it from the marshaled JSON). -/
structure setCampaignSchedulePayload where
  CampaignId : String
  StartDate : String
  EndDate : String
  Schedules : List campaignSchedule
deriving DecidableEq, Repr

/-- convert of internalSetCampaignSchedulePayload: format the start date with
the "2006-01-02" layout, the end date likewise when present, and map every
schedule block to its wire form — days keyed by the decimal weekday number,
the timezone by its name, and the timing bounds with the "15:04" layout. -/
def internalSetCampaignSchedulePayload.convert
    (p : internalSetCampaignSchedulePayload) :
    Except GoError setCampaignSchedulePayload :=
  .ok
    { CampaignId := p.CampaignId
      StartDate := p.StartDate.format20060102
      EndDate :=
        match p.EndDate with
        | none => ""
        | some e => e.format20060102
      Schedules := p.Schedules.map (fun s =>
        { Name := s.Name
          Days := s.Days.map (fun dv => (toString dv.1.toInt, dv.2))
          Timezone := s.Timezone.name
          ScheduleTiming :=
            { From := s.ScheduleTiming.From.format1504
              To := s.ScheduleTiming.To.format1504 } }) }

/-- Marshaled form of the wire-form campaignSchedule. -/
def campaignSchedule.marshal (s : campaignSchedule) : GoJson :=
  .obj [("name", .str s.Name),
    ("days", .obj (s.Days.map (fun kv => (kv.1, GoJson.bool kv.2)))),
    ("timezone", .str s.Timezone),
    ("timing", .obj [("from", .str s.ScheduleTiming.From),
      ("to", .str s.ScheduleTiming.To)])]

/-- Marshaled form of setCampaignSchedulePayload: end_date carries omitempty,
so an empty end date produces no end_date key. -/
def setCampaignSchedulePayload.marshal (p : setCampaignSchedulePayload) :
    GoJson :=
  .obj ([("campaign_id", GoJson.str p.CampaignId),
      ("start_date", GoJson.str p.StartDate)] ++
    (if p.EndDate = "" then [] else [("end_date", GoJson.str p.EndDate)]) ++
    [("schedules", GoJson.arr (p.Schedules.map campaignSchedule.marshal))])

/-- A transport whose every request is answered with the same response body,
the mocked transport of the testable properties of the spec. -/
def constTransport (b : Body) : Transport :=
  { get := fun _ => .ok b, post := fun _ _ => .ok b }

/-- The response body carrying the JSON object with a single status field. -/
def statusBody (s : String) : Body :=
  .json (.obj [("status", .str s)])

/-- Fields of a JSON object document (empty for any other document). -/
def objFields : GoJson → List (String × GoJson)
  | .obj fields => fields
  | _ => []

/-- Observation of the wire body post emits: the value bound to a key of the
body that postWireBody hands to the transport. -/
def wireLookup (c : Client) (body : GoJson) (key : String) : Option GoJson :=
  match c.postWireBody body with
  | .ok (.obj out) => goLookup out key
  | _ => none

/-- A concrete client used to instantiate theorems with hypotheses: api key
KEY and all construction defaults. -/
def cW : Client :=
  ⟨"KEY", ⟨"api.instantly.ai", 1, some (ratelimitNew 10 timeSecond),
    some HttpClient.std⟩⟩

/-- The constant transport answering every request with an empty JSON
object, used to instantiate theorems. -/
def t0 : Transport := constTransport (.json (.obj []))

/-- The spec-side date-shape predicate: a string of exactly four decimal
digits, a hyphen, two digits, a hyphen and two digits — the YYYY-MM-DD form
the spec prescribes for serialized calendar dates. -/
def isDateYYYYMMDD (s : String) : Bool :=
  match s.toList with
  | [a, b, c, d, '-', e, f, '-', g, h] =>
    [a, b, c, d, e, f, g, h].all Char.isDigit
  | _ => false

/-- Start date 2024-01-15 of the round-trip example. -/
def c5Start : GoTime := ⟨2024, 1, 15, 0, 0, 0, 0, 0⟩

/-- Timing lower bound 09:00 of the round-trip example. -/
def c5From : GoTime := ⟨2024, 1, 15, 9, 0, 0, 0, 0⟩

/-- Timing upper bound 17:00 of the round-trip example. -/
def c5To : GoTime := ⟨2024, 1, 15, 17, 0, 0, 0, 0⟩

/-- The schedule payload of the round-trip example: start 2024-01-15, no end
date, one block named Morning on Monday, Wednesday and Friday in
America/New_York between 09:00 and 17:00. -/
def c5Input : internalSetCampaignSchedulePayload :=
  { CampaignId := "camp-1"
    StartDate := c5Start
    EndDate := none
    Schedules := [{ Name := "Morning"
                    Days := [(GoWeekday.monday, true),
                             (GoWeekday.wednesday, true),
                             (GoWeekday.friday, true)]
                    Timezone := ⟨"America/New_York"⟩
                    ScheduleTiming := { From := c5From, To := c5To } }] }

/-- The wire payload the round-trip example must produce. -/
def c5Expected : setCampaignSchedulePayload :=
  { CampaignId := "camp-1"
    StartDate := "2024-01-15"
    EndDate := ""
    Schedules := [{ Name := "Morning"
                    Days := [("1", true), ("3", true), ("5", true)]
                    Timezone := "America/New_York"
                    ScheduleTiming := { From := "09:00", To := "17:00" } }] }

/-- Discriminator: the option is a WithHost option. -/
def GoOption.isHostOpt : GoOption → Bool
  | .withHost _ => true
  | _ => false

/-- Discriminator: the option is a WithApiVersion option. -/
def GoOption.isVersionOpt : GoOption → Bool
  | .withApiVersion _ => true
  | _ => false

/-- Discriminator: the option is a WithRateLimit option. -/
def GoOption.isRateOpt : GoOption → Bool
  | .withRateLimit _ => true
  | _ => false

/-- Discriminator: the option is a WithHttpClient option. -/
def GoOption.isClientOpt : GoOption → Bool
  | .withHttpClient _ => true
  | _ => false

theorem goLookup_append (xs ys : List (String × GoJson)) (key : String) :
    goLookup (xs ++ ys) key =
      match goLookup ys key with
      | some w => some w
      | none => goLookup xs key := by
  induction xs with
  | nil =>
    simp only [List.nil_append]
    cases goLookup ys key <;> rfl
  | cons kv rest ih =>
    cases kv with
    | mk k v =>
      simp only [List.cons_append, goLookup, List.append_eq]
      rw [ih]
      cases hys : goLookup ys key <;> cases hrest : goLookup rest key <;>
        simp [hys, hrest]

theorem goLookup_goMapSet_self (m : List (String × GoJson)) (k : String)
    (v : GoJson) : goLookup (goMapSet m k v) k = some v := by
  simp [goMapSet, goLookup_append, goLookup]

theorem goLookup_goMapSet_other (m : List (String × GoJson)) (k key : String)
    (v : GoJson) (h : key ≠ k) :
    goLookup (goMapSet m k v) key = goLookup m key := by
  have hk : ¬ k = key := fun hc => h hc.symm
  induction m with
  | nil => simp [goMapSet, goLookup, hk]
  | cons kv rest ih =>
    by_cases hkv : kv.1 = k
    · have hkey : ¬ kv.1 = key := by rw [hkv]; exact hk
      cases hrest : goLookup rest key <;>
        simp_all [goMapSet, List.filter_cons, goLookup, hkv, hkey, hrest]
    · cases hrest : goLookup rest key <;>
        simp_all [goMapSet, List.filter_cons, goLookup, hkv, hrest]

theorem goLookup_foldl_goMapSet (fields : List (String × GoJson))
    (m : List (String × GoJson)) (key : String) :
    goLookup (fields.foldl (fun acc kv => goMapSet acc kv.1 kv.2) m) key =
      match goLookup fields key with
      | some w => some w
      | none => goLookup m key := by
  induction fields generalizing m with
  | nil =>
    simp only [List.foldl_nil, goLookup]
  | cons kv rest ih =>
    cases kv with
    | mk k v =>
      simp only [List.foldl_cons, goLookup, ih]
      by_cases hk : key = k
      · subst hk
        cases hrest : goLookup rest key <;>
          simp [hrest, goLookup_goMapSet_self]
      · have hk2 : ¬ k = key := fun hc => hk hc.symm
        cases hrest : goLookup rest key <;>
          simp [hrest, goLookup_goMapSet_other m k key v hk, hk2]

theorem goLookup_goObjToMap (fields : List (String × GoJson)) (key : String) :
    goLookup (goObjToMap fields) key = goLookup fields key := by
  simp only [goObjToMap, goLookup_foldl_goMapSet]
  cases goLookup fields key <;> rfl

/-- C2: for every write call whose payload marshals to a JSON object, the
emitted JSON body is the marshaled payload plus one additional top-level
api_key field holding the client api key: api_key is bound in the wire body,
every other key is bound exactly as in the payload (so nothing existing is
overwritten when the payload lacks an api_key field), and the wire body is
still an object.  Even the empty payload of MarkAllAccountsAsFixed (whose
single omitempty field vanishes) yields a body holding exactly api_key. -/
theorem c2_post_injects_api_key (c : Client) (fields : List (String × GoJson))
    (k : String) (hk : k ≠ "api_key") :
    (∃ out, c.postWireBody (.obj fields) = .ok (.obj out))
    ∧ wireLookup c (.obj fields) "api_key" = some (.str c.apiKey)
    ∧ wireLookup c (.obj fields) k = goLookup fields k
    ∧ c.postWireBody (markAccountAsFixedPayload "") =
        .ok (.obj [("api_key", .str c.apiKey)]) := by
  refine ⟨⟨_, rfl⟩, ?_, ?_, rfl⟩
  · simp [wireLookup, Client.postWireBody, goLookup_goMapSet_self]
  · simp [wireLookup, Client.postWireBody,
      goLookup_goMapSet_other _ _ _ _ hk, goLookup_goObjToMap]

/-- Witness for C2 at a concrete client and payload. -/
theorem c2_witness :
    ("email" : String) ≠ "api_key"
    ∧ wireLookup cW (.obj [("email", .str "a")]) "api_key" =
        some (.str "KEY")
    ∧ wireLookup cW (.obj [("email", .str "a")]) "email" =
        some (.str "a") :=
  ⟨by decide,
   (c2_post_injects_api_key cW [("email", .str "a")] "email"
     (by decide)).2.1,
   ((c2_post_injects_api_key cW [("email", .str "a")] "email"
     (by decide)).2.2.1).trans rfl⟩

theorem foldl_query_append (params : List query) (init : String) :
    params.foldl (fun url p => url ++ "&" ++ p.key ++ "=" ++ p.value) init =
      init ++
        params.foldr (fun q acc => "&" ++ q.key ++ "=" ++ q.value ++ acc)
          "" := by
  induction params generalizing init with
  | nil => simp
  | cons q qs ih =>
    rw [List.foldl_cons, ih]
    simp [String.append_assoc]

/-- C3: for every client, path and parameter list, the read URL is exactly
the body URL, a question mark, the api_key pair, and one ampersand-joined
key=value pair per supplied parameter in the order supplied; the body URL of
the empty path is the base URL https host /api/v version /; and when no
supplied parameter is itself named api_key, the query pairs of the emitted
URL — the api_key pair followed by the supplied pairs — bind api_key exactly
once. -/
theorem c3_read_url_shape (c : Client) (path : String) (params : List query)
    (hnp : params.countP (fun q => q.key == "api_key") = 0) :
    c.buildQueryUrl path params =
      c.buildBodyUrl path ++ "?api_key=" ++ c.apiKey ++
        params.foldr (fun q acc => "&" ++ q.key ++ "=" ++ q.value ++ acc) ""
    ∧ c.buildBodyUrl "" = "https://" ++ c.options.host ++ "/api/v" ++
        toString c.options.apiVersion ++ "/"
    ∧ (param "api_key" c.apiKey :: params).countP
        (fun q => q.key == "api_key") = 1 := by
  refine ⟨foldl_query_append params _, by simp [Client.buildBodyUrl], ?_⟩
  simp [List.countP_cons, hnp, param]

/-- Witness for C3 at a concrete client, path and parameter list; the first
component evaluates the URL shape to the literal URL. -/
theorem c3_witness :
    cW.buildQueryUrl "account/list" [param "limit" "10", param "skip" "0"] =
      "https://api.instantly.ai/api/v1/account/list?api_key=KEY&limit=10&skip=0"
    ∧ (param "api_key" cW.apiKey ::
        [param "limit" "10", param "skip" "0"]).countP
        (fun q => q.key == "api_key") = 1 :=
  ⟨((c3_read_url_shape cW "account/list"
      [param "limit" "10", param "skip" "0"] (by decide)).1).trans rfl,
   (c3_read_url_shape cW "account/list"
      [param "limit" "10", param "skip" "0"] (by decide)).2.2⟩

/-- C4: against a transport answering every request with a body whose status
is success, each status-only write method (SetCampaignName, LaunchCampaign,
PauseCampaign, EnableWarmup, DeleteAccount) returns a nil error; against a
body whose status is any string other than success, each returns a non-nil
application error. -/
theorem c4_status_only_methods (c : Client)
    (campaignId campaignName email s : String) (hs : s ≠ "success") :
    c.SetCampaignName (constTransport (statusBody "success")) campaignId
        campaignName = none
    ∧ c.LaunchCampaign (constTransport (statusBody "success")) campaignId =
        none
    ∧ c.PauseCampaign (constTransport (statusBody "success")) campaignId =
        none
    ∧ c.EnableWarmup (constTransport (statusBody "success")) email = none
    ∧ c.DeleteAccount (constTransport (statusBody "success")) email = none
    ∧ (c.SetCampaignName (constTransport (statusBody s)) campaignId
        campaignName).isSome
    ∧ (c.LaunchCampaign (constTransport (statusBody s)) campaignId).isSome
    ∧ (c.PauseCampaign (constTransport (statusBody s)) campaignId).isSome
    ∧ (c.EnableWarmup (constTransport (statusBody s)) email).isSome
    ∧ (c.DeleteAccount (constTransport (statusBody s)) email).isSome := by
  refine ⟨rfl, rfl, rfl, rfl, rfl, ?_, ?_, ?_, ?_, ?_⟩ <;>
    simp [Client.SetCampaignName, Client.LaunchCampaign, Client.PauseCampaign,
      Client.EnableWarmup, Client.DeleteAccount, Client.post,
      Client.postWireBody, goObjToMap, goMapSet, constTransport, statusBody,
      jsonUnmarshal, decodeStatus, jStr, goLookup, setCampaignNamePayload,
      launchCampaignPayload, pauseCampaignPayload, enableWarmupPayload,
      deleteAccountPayload, hs]

/-- Witness for C4 at a concrete client and failing status string. -/
theorem c4_witness :
    ("failed" : String) ≠ "success"
    ∧ cW.SetCampaignName (constTransport (statusBody "success")) "c1" "n1" =
        none
    ∧ (cW.SetCampaignName (constTransport (statusBody "failed")) "c1"
        "n1").isSome :=
  ⟨by decide,
   (c4_status_only_methods cW "c1" "n1" "e@x.co" "failed" (by decide)).1,
   (c4_status_only_methods cW "c1" "n1" "e@x.co" "failed"
     (by decide)).2.2.2.2.2.1⟩

theorem jsonUnmarshal_null_json (dec : GoJson → Except GoError α)
    (v : GoJson) :
    jsonUnmarshal dec .null (.json v) = .error "json: Unmarshal(nil)" := rfl

/-- C1: GetCampaignSummary, GetCampaignCount and AddLeadsToCampaign hand
json.Unmarshal the never-allocated nil pointer declared in their named
returns, so whatever the transport does, each returns a nil result and a
non-nil error; and whenever the transport does return a body — in
particular any well-formed JSON document — the error is the unmarshal
(decode) error wrapping the Unmarshal(nil) failure.  None of the three can
ever return successfully. -/
theorem c1_nil_decode_targets (c : Client) (t : Transport)
    (campaignId : String) (startDate : GoTime) (endDate : Option GoTime)
    (leads : List Lead) :
    ((c.GetCampaignSummary t campaignId).1 = none
      ∧ (c.GetCampaignSummary t campaignId).2.isSome)
    ∧ ((c.GetCampaignCount t campaignId startDate endDate).1 = none
      ∧ (c.GetCampaignCount t campaignId startDate endDate).2.isSome)
    ∧ ((c.AddLeadsToCampaign t campaignId leads).1 = none
      ∧ (c.AddLeadsToCampaign t campaignId leads).2.isSome)
    ∧ (∀ v, t.get (c.buildQueryUrl "campaign/summary"
          [param "campaign_id" campaignId]) = .ok (.json v) →
        (c.GetCampaignSummary t campaignId).2 =
          some ("failed to unmarshal campaign summary: " ++
            "json: Unmarshal(nil)"))
    ∧ (∀ v, t.get (c.buildQueryUrl "analytics/campaign/count"
          (getCampaignCountQueries campaignId startDate endDate)) =
            .ok (.json v) →
        (c.GetCampaignCount t campaignId startDate endDate).2 =
          some ("failed to unmarshal campaign count: " ++
            "json: Unmarshal(nil)"))
    ∧ (∀ v wire,
        c.postWireBody (addLeadsToCampaignPayload campaignId leads) =
          .ok wire →
        t.post (c.buildBodyUrl "lead/add") wire = .ok (.json v) →
        (c.AddLeadsToCampaign t campaignId leads).2 =
          some ("failed to unmarshal add leads to campaign: " ++
            "json: Unmarshal(nil)")) := by
  refine ⟨?_, ?_, ?_, ?_, ?_, ?_⟩
  · unfold Client.GetCampaignSummary Client.get
    cases hg : t.get (c.buildQueryUrl "campaign/summary"
        [param "campaign_id" campaignId]) with
    | error e => exact ⟨rfl, rfl⟩
    | ok data => cases data with
      | json v => exact ⟨rfl, rfl⟩
      | malformed raw => exact ⟨rfl, rfl⟩
  · unfold Client.GetCampaignCount Client.get
    cases hg : t.get (c.buildQueryUrl "analytics/campaign/count"
        (getCampaignCountQueries campaignId startDate endDate)) with
    | error e => exact ⟨rfl, rfl⟩
    | ok data => cases data with
      | json v => exact ⟨rfl, rfl⟩
      | malformed raw => exact ⟨rfl, rfl⟩
  · unfold Client.AddLeadsToCampaign Client.post
    cases hw : c.postWireBody (addLeadsToCampaignPayload campaignId leads) with
    | error e => exact ⟨rfl, rfl⟩
    | ok wire =>
      dsimp only
      cases hp : t.post (c.buildBodyUrl "lead/add") wire with
      | error e => exact ⟨rfl, rfl⟩
      | ok data => cases data with
        | json v => exact ⟨rfl, rfl⟩
        | malformed raw => exact ⟨rfl, rfl⟩
  · intro v hv
    unfold Client.GetCampaignSummary Client.get
    rw [hv]
    rfl
  · intro v hv
    unfold Client.GetCampaignCount Client.get
    rw [hv]
    rfl
  · intro v wire hw hp
    unfold Client.AddLeadsToCampaign Client.post
    rw [hw]
    dsimp only
    rw [hp]
    rfl

/-- Witness for C1 at a concrete client and transport: the methods return
nil results and the nil-pointer unmarshal error even for a well-formed
response document. -/
theorem c1_witness :
    (cW.GetCampaignSummary t0 "c1").1 = none
    ∧ (cW.GetCampaignSummary t0 "c1").2 =
        some ("failed to unmarshal campaign summary: " ++
          "json: Unmarshal(nil)")
    ∧ (cW.AddLeadsToCampaign t0 "c1" []).2 =
        some ("failed to unmarshal add leads to campaign: " ++
          "json: Unmarshal(nil)") :=
  ⟨(c1_nil_decode_targets cW t0 "c1" zeroGoTime none []).1.1,
   (c1_nil_decode_targets cW t0 "c1" zeroGoTime none []).2.2.2.1
     (.obj []) rfl,
   (c1_nil_decode_targets cW t0 "c1" zeroGoTime none []).2.2.2.2.2
     (.obj []) _ rfl rfl⟩

/-- C7: when the decoded lead/get response holds zero elements,
GetLeadFromCampaign returns the zero lead and the not-found error; with two
or more elements it returns the zero lead and the multiple-leads error; and
it returns without error only when the decoded response holds exactly one
element whose creation timestamp parses as RFC3339. -/
theorem c7_lead_lookup (c : Client) (campaignId email : String)
    (body : GoJson) :
    (decodeGetLeadFromCampaignResponse body = .ok [] →
      c.GetLeadFromCampaign (constTransport (.json body)) campaignId email =
        (zeroInternalLead, some "no lead found"))
    ∧ (∀ L, decodeGetLeadFromCampaignResponse body = .ok L →
        2 ≤ L.length →
      c.GetLeadFromCampaign (constTransport (.json body)) campaignId email =
        (zeroInternalLead, some "multiple leads found"))
    ∧ ((c.GetLeadFromCampaign (constTransport (.json body)) campaignId
          email).2 = none →
      ∃ item, decodeGetLeadFromCampaignResponse body = .ok [item]
        ∧ (parseRFC3339 item.Timestamp).isSome) := by
  have hbase :
      c.GetLeadFromCampaign (constTransport (.json body)) campaignId email =
        (match decodeGetLeadFromCampaignResponse body with
         | .error e =>
           (zeroInternalLead,
             some ("failed to unmarshal get lead from campaign: " ++ e))
         | .ok res =>
           match res with
           | [] => (zeroInternalLead, some "no lead found")
           | item :: [] =>
             match parseRFC3339 item.Timestamp with
             | none => (zeroInternalLead,
                 some "failed to parse timestamp: parsing error")
             | some ts =>
               ({ Id := item.Id, Timestamp := ts, Campaign := item.Campaign,
                  Status := item.Status, Contact := item.Contact,
                  EmailOpened := item.EmailOpened,
                  EmailReplied := item.EmailReplied,
                  LeadData := item.LeadData,
                  CampaignName := item.CampaignName }, none)
           | _ :: _ :: _ => (zeroInternalLead, some "multiple leads found")) :=
    rfl
  refine ⟨?_, ?_, ?_⟩
  · intro h
    rw [hbase, h]
  · intro L h hL
    rw [hbase, h]
    cases L with
    | nil => simp at hL
    | cons a as =>
      cases as with
      | nil => simp at hL
      | cons b bs => rfl
  · intro h2
    rw [hbase] at h2
    cases hd : decodeGetLeadFromCampaignResponse body with
    | error e => rw [hd] at h2; simp at h2
    | ok res =>
      rw [hd] at h2
      cases res with
      | nil => simp at h2
      | cons a as =>
        cases as with
        | nil =>
          dsimp only at h2
          cases hp : parseRFC3339 a.Timestamp with
          | none => rw [hp] at h2; simp at h2
          | some ts => exact ⟨a, rfl, by rw [hp]; rfl⟩
        | cons b bs => simp at h2

/-- Witness for C7: the empty-array response yields the not-found error at a
concrete client. -/
theorem c7_witness :
    decodeGetLeadFromCampaignResponse (.arr []) = .ok []
    ∧ cW.GetLeadFromCampaign (constTransport (.json (.arr []))) "c1"
        "a@b.co" = (zeroInternalLead, some "no lead found") :=
  ⟨rfl, (c7_lead_lookup cW "c1" "a@b.co" (.arr [])).1 rfl⟩

theorem asString_data (l : List Char) : l.asString.data = l := rfl

theorem digitChar_isDigit (m : Nat) (h : m < 10) :
    (Nat.digitChar m).isDigit = true := by
  interval_cases m <;> rfl

theorem toDigitsCore_step (f n : Nat) (acc : List Char) (h : n / 10 ≠ 0) :
    Nat.toDigitsCore 10 (f + 1) n acc =
      Nat.toDigitsCore 10 f (n / 10) (Nat.digitChar (n % 10) :: acc) := by
  simp [Nat.toDigitsCore, h]

theorem toDigitsCore_last (f n : Nat) (acc : List Char) (h : n / 10 = 0) :
    Nat.toDigitsCore 10 (f + 1) n acc = Nat.digitChar (n % 10) :: acc := by
  simp [Nat.toDigitsCore, h]

theorem toDigitsCore_data_one (f n : Nat) (acc : List Char) (h : n < 10)
    (hf : 1 ≤ f) :
    Nat.toDigitsCore 10 f n acc = Nat.digitChar (n % 10) :: acc := by
  obtain ⟨f1, rfl⟩ : ∃ f1, f = f1 + 1 := ⟨f - 1, by omega⟩
  exact toDigitsCore_last f1 n acc (by omega)

theorem toDigitsCore_data_two (f n : Nat) (acc : List Char) (h1 : 10 ≤ n)
    (h2 : n < 100) (hf : 2 ≤ f) :
    Nat.toDigitsCore 10 f n acc =
      Nat.digitChar (n / 10 % 10) :: Nat.digitChar (n % 10) :: acc := by
  obtain ⟨f1, rfl⟩ : ∃ f1, f = f1 + 1 := ⟨f - 1, by omega⟩
  rw [toDigitsCore_step f1 n acc (by omega)]
  exact toDigitsCore_data_one f1 (n / 10) _ (by omega) (by omega)

theorem toDigitsCore_data_three (f n : Nat) (acc : List Char) (h1 : 100 ≤ n)
    (h2 : n < 1000) (hf : 3 ≤ f) :
    Nat.toDigitsCore 10 f n acc =
      Nat.digitChar (n / 10 / 10 % 10) :: Nat.digitChar (n / 10 % 10) ::
        Nat.digitChar (n % 10) :: acc := by
  obtain ⟨f1, rfl⟩ : ∃ f1, f = f1 + 1 := ⟨f - 1, by omega⟩
  rw [toDigitsCore_step f1 n acc (by omega)]
  exact toDigitsCore_data_two f1 (n / 10) _ (by omega) (by omega) (by omega)

theorem toDigitsCore_data_four (f n : Nat) (acc : List Char) (h1 : 1000 ≤ n)
    (h2 : n < 10000) (hf : 4 ≤ f) :
    Nat.toDigitsCore 10 f n acc =
      Nat.digitChar (n / 10 / 10 / 10 % 10) ::
        Nat.digitChar (n / 10 / 10 % 10) :: Nat.digitChar (n / 10 % 10) ::
        Nat.digitChar (n % 10) :: acc := by
  obtain ⟨f1, rfl⟩ : ∃ f1, f = f1 + 1 := ⟨f - 1, by omega⟩
  rw [toDigitsCore_step f1 n acc (by omega)]
  exact toDigitsCore_data_three f1 (n / 10) _ (by omega) (by omega) (by omega)

theorem repr_data_two (n : Nat) (h1 : 10 ≤ n) (h2 : n < 100) :
    (Nat.repr n).data =
      [Nat.digitChar (n / 10 % 10), Nat.digitChar (n % 10)] := by
  show (Nat.toDigits 10 n).asString.data = _
  unfold Nat.toDigits
  rw [toDigitsCore_data_two (n + 1) n [] h1 h2 (by omega), asString_data]

theorem pad2_data (n : Nat) (h : n < 100) :
    (pad2 n).data = [Nat.digitChar (n / 10 % 10), Nat.digitChar (n % 10)] := by
  by_cases h10 : n < 10
  · have hdiv : n / 10 = 0 := by omega
    have hmod : n % 10 = n := by omega
    show ((if n < 10 then "0" ++ toString n else toString n)).data = _
    rw [if_pos h10]
    show ("0" ++ Nat.repr n).data = _
    have : (Nat.repr n).data = [Nat.digitChar (n % 10)] := by
      show (Nat.toDigits 10 n).asString.data = _
      unfold Nat.toDigits
      rw [toDigitsCore_data_one (n + 1) n [] h10 (by omega), asString_data]
    simp [String.data_append, this, hdiv]
    rfl
  · show ((if n < 10 then "0" ++ toString n else toString n)).data = _
    rw [if_neg h10]
    exact repr_data_two n (by omega) h

theorem pad4_data (n : Nat) (h : n < 10000) :
    (pad4 n).data =
      [Nat.digitChar (n / 10 / 10 / 10 % 10), Nat.digitChar (n / 10 / 10 % 10),
        Nat.digitChar (n / 10 % 10), Nat.digitChar (n % 10)] := by
  unfold pad4
  by_cases ha : n < 10
  · rw [if_pos ha]
    show ("000" ++ Nat.repr n).data = _
    have hr : (Nat.repr n).data = [Nat.digitChar (n % 10)] := by
      show (Nat.toDigits 10 n).asString.data = _
      unfold Nat.toDigits
      rw [toDigitsCore_data_one (n + 1) n [] ha (by omega), asString_data]
    have d1 : n / 10 = 0 := by omega
    have d2 : n / 10 / 10 = 0 := by omega
    have d3 : n / 10 / 10 / 10 = 0 := by omega
    simp [String.data_append, hr, d1, d2, d3]
    rfl
  · rw [if_neg ha]
    by_cases hb : n < 100
    · rw [if_pos hb]
      show ("00" ++ Nat.repr n).data = _
      have hr := repr_data_two n (by omega) hb
      have d2 : n / 10 / 10 = 0 := by omega
      have d3 : n / 10 / 10 / 10 = 0 := by omega
      simp [String.data_append, hr, d2, d3]
      rfl
    · rw [if_neg hb]
      by_cases hc : n < 1000
      · rw [if_pos hc]
        show ("0" ++ Nat.repr n).data = _
        have hr : (Nat.repr n).data =
            [Nat.digitChar (n / 10 / 10 % 10), Nat.digitChar (n / 10 % 10),
              Nat.digitChar (n % 10)] := by
          show (Nat.toDigits 10 n).asString.data = _
          unfold Nat.toDigits
          rw [toDigitsCore_data_three (n + 1) n [] (by omega) hc (by omega),
            asString_data]
        have d3 : n / 10 / 10 / 10 = 0 := by omega
        simp [String.data_append, hr, d3]
        rfl
      · rw [if_neg hc]
        show (Nat.repr n).data = _
        show (Nat.toDigits 10 n).asString.data = _
        unfold Nat.toDigits
        rw [toDigitsCore_data_four (n + 1) n [] (by omega) h (by omega),
          asString_data]

theorem format20060102_isYYYYMMDD (t : GoTime) (h0 : 0 ≤ t.year)
    (h4 : t.year < 10000) (hm : t.month < 100) (hd : t.day < 100) :
    isDateYYYYMMDD t.format20060102 = true := by
  have hy : ¬ t.year < 0 := by omega
  have hna : t.year.natAbs < 10000 := by omega
  have hdig : ∀ x : Nat, ((x % 10).digitChar).isDigit = true :=
    fun x => digitChar_isDigit (x % 10) (Nat.mod_lt x (by omega))
  have hdata : (t.format20060102).toList =
      [(t.year.natAbs / 10 / 10 / 10 % 10).digitChar,
       (t.year.natAbs / 10 / 10 % 10).digitChar,
       (t.year.natAbs / 10 % 10).digitChar, (t.year.natAbs % 10).digitChar,
       '-', (t.month / 10 % 10).digitChar, (t.month % 10).digitChar, '-',
       (t.day / 10 % 10).digitChar, (t.day % 10).digitChar] := by
    show (t.format20060102).data = _
    unfold GoTime.format20060102 pad4Year
    rw [if_neg hy]
    simp [String.data_append, pad4_data t.year.natAbs hna,
      pad2_data t.month hm, pad2_data t.day hd]
  unfold isDateYYYYMMDD
  rw [hdata]
  simp [hdig]

/-- C5: the schedule conversion maps the example internal payload to
start_date 2024-01-15, days keyed 1, 3 and 5 (all true), timezone
America/New_York and timing from 09:00 to 17:00; and because the end date is
absent its omitempty tag drops end_date from the marshaled JSON, while
start_date is serialized as 2024-01-15. -/
theorem c5_schedule_conversion :
    c5Input.convert = .ok c5Expected
    ∧ goLookup (objFields c5Expected.marshal) "end_date" = none
    ∧ goLookup (objFields c5Expected.marshal) "start_date" =
        some (.str "2024-01-15") :=
  ⟨rfl, rfl, rfl⟩

/-- C6 counterexample: GetCampaignCount formats the start date 2024-01-15
into its start_date query parameter as 01-15-2024, which is not of the
YYYY-MM-DD shape — refuting the claim that every serialized calendar date is
YYYY-MM-DD. -/
theorem c6_counterexample :
    getCampaignCountQueries "c1" c5Start none =
      [param "campaign_id" "c1", param "start_date" "01-15-2024"]
    ∧ isDateYYYYMMDD "01-15-2024" = false :=
  ⟨rfl, rfl⟩

/-- C6 amended: the schedule conversion serializes start and end dates with
the YYYY-MM-DD layout (so, for any time whose year fits in four digits and
whose month and day fields are two-digit, the result has the YYYY-MM-DD
shape), while GetCampaignCount serializes the start_date and end_date query
values with the MM-DD-YYYY layout instead, which is not YYYY-MM-DD. -/
theorem c6_amended_date_layouts (t : GoTime) (h0 : 0 ≤ t.year)
    (h4 : t.year < 10000) (hm : t.month < 100) (hd : t.day < 100)
    (cid : String) (sd : GoTime) (ed : Option GoTime) :
    isDateYYYYMMDD t.format20060102 = true
    ∧ (∀ (p : internalSetCampaignSchedulePayload) q, p.convert = .ok q →
        q.StartDate = p.StartDate.format20060102
        ∧ (∀ d, p.EndDate = some d → q.EndDate = d.format20060102))
    ∧ (∀ q ∈ getCampaignCountQueries cid sd ed,
        (q.key = "start_date" → q.value = sd.format01022006)
        ∧ (q.key = "end_date" →
            ∃ e, ed = some e ∧ q.value = e.format01022006))
    ∧ isDateYYYYMMDD (c5Start.format01022006) = false := by
  refine ⟨format20060102_isYYYYMMDD t h0 h4 hm hd, ?_, ?_, rfl⟩
  · intro p q hpq
    unfold internalSetCampaignSchedulePayload.convert at hpq
    injection hpq with hpq
    subst hpq
    exact ⟨rfl, fun d hdq => by rw [hdq]⟩
  · intro q hq
    cases ed with
    | none =>
      have hq2 : q ∈ [param "campaign_id" cid,
          param "start_date" sd.format01022006] := hq
      simp only [List.mem_cons, List.mem_singleton, List.not_mem_nil,
        or_false] at hq2
      rcases hq2 with rfl | rfl
      · exact ⟨fun hk => by simp [param] at hk, fun hk => by simp [param] at hk⟩
      · exact ⟨fun _ => rfl, fun hk => by simp [param] at hk⟩
    | some e =>
      by_cases hne : e.format01022006 ≠ ""
      · have hlist : getCampaignCountQueries cid sd (some e) =
            [param "campaign_id" cid, param "start_date" sd.format01022006,
              param "end_date" e.format01022006] := by
          simp [getCampaignCountQueries, hne]
        rw [hlist] at hq
        simp only [List.mem_cons, List.mem_singleton, List.not_mem_nil,
          or_false] at hq
        rcases hq with rfl | rfl | rfl
        · exact ⟨fun hk => by simp [param] at hk,
            fun hk => by simp [param] at hk⟩
        · exact ⟨fun _ => rfl, fun hk => by simp [param] at hk⟩
        · exact ⟨fun hk => by simp [param] at hk, fun _ => ⟨e, rfl, rfl⟩⟩
      · have heq : e.format01022006 = "" := not_not.mp hne
        have hlist : getCampaignCountQueries cid sd (some e) =
            [param "campaign_id" cid,
              param "start_date" sd.format01022006] := by
          simp [getCampaignCountQueries, heq]
        rw [hlist] at hq
        simp only [List.mem_cons, List.mem_singleton, List.not_mem_nil,
          or_false] at hq
        rcases hq with rfl | rfl
        · exact ⟨fun hk => by simp [param] at hk,
            fun hk => by simp [param] at hk⟩
        · exact ⟨fun _ => rfl, fun hk => by simp [param] at hk⟩

/-- Witness for C6 amended at the concrete date 2024-01-15. -/
theorem c6_amended_witness :
    ((0 : Int) ≤ c5Start.year ∧ c5Start.year < 10000 ∧ c5Start.month < 100
      ∧ c5Start.day < 100)
    ∧ isDateYYYYMMDD c5Start.format20060102 = true
    ∧ isDateYYYYMMDD c5Start.format01022006 = false :=
  ⟨⟨by decide, by decide, by decide, by decide⟩,
   (c6_amended_date_layouts c5Start (by decide) (by decide) (by decide)
     (by decide) "c1" c5Start none).1,
   (c6_amended_date_layouts c5Start (by decide) (by decide) (by decide)
     (by decide) "c1" c5Start none).2.2.2⟩

/-- C8: New(apiKey, WithApiVersion(v)) with v below 1 fails at construction
with the invalid-api-version error and no client; with v at least 1 the
option succeeds and the constructed client carries API version v. -/
theorem c8_api_version_validation (apiKey : String) (v w : Int)
    (hv : v < 1) (hw : 1 ≤ w) :
    New apiKey [.withApiVersion v] =
      .error ("invalid api version: " ++ toString v)
    ∧ ∃ c, New apiKey [.withApiVersion w] = .ok c
        ∧ c.options.apiVersion = w := by
  constructor
  · simp [New, applyOptions, applyOption, hv]
  · refine ⟨⟨apiKey, ⟨"api.instantly.ai", w,
      some (ratelimitNew 10 timeSecond), some HttpClient.std⟩⟩, ?_, rfl⟩
    have hnv : ¬ w < 1 := by omega
    have hw0 : ¬ w = 0 := by omega
    simp [New, applyOptions, applyOption, zeroOptions, setDefaults, hnv, hw0]

/-- Witness for C8 at versions 0 and 2. -/
theorem c8_witness :
    ((0 : Int) < 1 ∧ (1 : Int) ≤ 2)
    ∧ New "k" [.withApiVersion 0] =
        .error ("invalid api version: " ++ toString (0 : Int))
    ∧ ∃ c, New "k" [.withApiVersion 2] = .ok c
        ∧ c.options.apiVersion = 2 :=
  ⟨⟨by decide, by decide⟩,
   (c8_api_version_validation "k" 0 2 (by decide) (by decide)).1,
   (c8_api_version_validation "k" 0 2 (by decide) (by decide)).2⟩

theorem applyOption_ok_preserve (o o1 : options) (opt : GoOption)
    (h : applyOption o opt = .ok o1) :
    (opt.isHostOpt = false → o1.host = o.host)
    ∧ (opt.isVersionOpt = false → o1.apiVersion = o.apiVersion)
    ∧ (opt.isRateOpt = false → o1.rateLimit = o.rateLimit)
    ∧ (opt.isClientOpt = false → o1.httpClient = o.httpClient) := by
  cases opt with
  | withHost s =>
    simp only [applyOption] at h
    split at h
    · injection h with h
      subst h
      exact ⟨fun hn => by simp [GoOption.isHostOpt] at hn, fun _ => rfl,
        fun _ => rfl, fun _ => rfl⟩
    · exact absurd h (by simp)
  | withApiVersion v =>
    simp only [applyOption] at h
    split at h
    · exact absurd h (by simp)
    · injection h with h
      subst h
      exact ⟨fun _ => rfl,
        fun hn => by simp [GoOption.isVersionOpt] at hn, fun _ => rfl,
        fun _ => rfl⟩
  | withRateLimit rl =>
    simp only [applyOption] at h
    injection h with h
    subst h
    exact ⟨fun _ => rfl, fun _ => rfl,
      fun hn => by simp [GoOption.isRateOpt] at hn, fun _ => rfl⟩
  | withHttpClient hc =>
    simp only [applyOption] at h
    injection h with h
    subst h
    exact ⟨fun _ => rfl, fun _ => rfl, fun _ => rfl,
      fun hn => by simp [GoOption.isClientOpt] at hn⟩

theorem applyOptions_ok_preserve (opts : List GoOption) :
    ∀ o o', applyOptions o opts = .ok o' →
      ((opts.all fun x => !x.isHostOpt) = true → o'.host = o.host)
      ∧ ((opts.all fun x => !x.isVersionOpt) = true →
          o'.apiVersion = o.apiVersion)
      ∧ ((opts.all fun x => !x.isRateOpt) = true →
          o'.rateLimit = o.rateLimit)
      ∧ ((opts.all fun x => !x.isClientOpt) = true →
          o'.httpClient = o.httpClient) := by
  induction opts with
  | nil =>
    intro o o' h
    injection h with h
    subst h
    exact ⟨fun _ => rfl, fun _ => rfl, fun _ => rfl, fun _ => rfl⟩
  | cons opt rest ih =>
    intro o o' h
    simp only [applyOptions] at h
    cases hopt : applyOption o opt with
    | error e => rw [hopt] at h; exact absurd h (by simp)
    | ok o1 =>
      rw [hopt] at h
      have hone := applyOption_ok_preserve o o1 opt hopt
      have hrest := ih o1 o' h
      refine ⟨?_, ?_, ?_, ?_⟩ <;> intro hall <;>
        simp only [List.all_cons, Bool.and_eq_true, Bool.not_eq_true'] at hall
      · rw [hrest.1 hall.2, hone.1 hall.1]
      · rw [hrest.2.1 hall.2, hone.2.1 hall.1]
      · rw [hrest.2.2.1 hall.2, hone.2.2.1 hall.1]
      · rw [hrest.2.2.2 hall.2, hone.2.2.2 hall.1]

theorem setDefaults_fields (o : options) :
    ((setDefaults o).host = if o.host = "" then "api.instantly.ai" else o.host)
    ∧ ((setDefaults o).apiVersion =
        if o.apiVersion = 0 then 1 else o.apiVersion)
    ∧ ((setDefaults o).rateLimit =
        if o.rateLimit.isNone then some (ratelimitNew 10 timeSecond)
        else o.rateLimit)
    ∧ ((setDefaults o).httpClient =
        if o.httpClient.isNone then some HttpClient.std
        else o.httpClient) := by
  unfold setDefaults
  by_cases h1 : o.host = "" <;> by_cases h2 : o.apiVersion = 0 <;>
    by_cases h3 : o.rateLimit.isNone <;> by_cases h4 : o.httpClient.isNone <;>
    simp [h1, h2, h3, h4]

/-- C9 counterexample: WithHost with the empty string is a supplied host
option that New accepts, yet the constructed client carries the default host
api.instantly.ai — the default is applied even though the option was
supplied, refuting that each default is applied exactly when the
corresponding option was not supplied. -/
theorem c9_counterexample :
    ([GoOption.withHost ""].all fun x => !x.isHostOpt) = false
    ∧ New "k" [GoOption.withHost ""] =
        .ok ⟨"k", ⟨"api.instantly.ai", 1, some (ratelimitNew 10 timeSecond),
          some HttpClient.std⟩⟩ :=
  ⟨rfl, rfl⟩

/-- C9 amended: New with no options yields a client with the default host
api.instantly.ai, API version 1, the 10-per-second token-bucket rate limiter
and the standard default HTTP client; and whenever construction succeeds,
each default is applied if the corresponding option was not supplied (the
converse fails: WithHost of the empty string leaves the host field empty and
the default is applied anyway). -/
theorem c9_defaults (apiKey : String) :
    New apiKey [] = .ok ⟨apiKey, ⟨"api.instantly.ai", 1,
      some (ratelimitNew 10 timeSecond), some HttpClient.std⟩⟩
    ∧ (∀ opts c, New apiKey opts = .ok c →
        ((opts.all fun x => !x.isHostOpt) = true →
          c.options.host = "api.instantly.ai")
        ∧ ((opts.all fun x => !x.isVersionOpt) = true →
            c.options.apiVersion = 1)
        ∧ ((opts.all fun x => !x.isRateOpt) = true →
            c.options.rateLimit = some (ratelimitNew 10 timeSecond))
        ∧ ((opts.all fun x => !x.isClientOpt) = true →
            c.options.httpClient = some HttpClient.std)) := by
  refine ⟨rfl, ?_⟩
  intro opts c h
  unfold New at h
  cases ho : applyOptions zeroOptions opts with
  | error e => rw [ho] at h; exact absurd h (by simp)
  | ok o =>
    rw [ho] at h
    injection h with h
    subst h
    have hpres := applyOptions_ok_preserve opts zeroOptions o ho
    have hdef := setDefaults_fields o
    refine ⟨?_, ?_, ?_, ?_⟩ <;> intro hall
    · have : o.host = "" := hpres.1 hall
      rw [show Client.options ⟨apiKey, setDefaults o⟩ = setDefaults o from rfl,
        hdef.1, this]
      rfl
    · have : o.apiVersion = 0 := hpres.2.1 hall
      rw [show Client.options ⟨apiKey, setDefaults o⟩ = setDefaults o from rfl,
        hdef.2.1, this]
      rfl
    · have : o.rateLimit = none := hpres.2.2.1 hall
      rw [show Client.options ⟨apiKey, setDefaults o⟩ = setDefaults o from rfl,
        hdef.2.2.1, this]
      rfl
    · have : o.httpClient = none := hpres.2.2.2 hall
      rw [show Client.options ⟨apiKey, setDefaults o⟩ = setDefaults o from rfl,
        hdef.2.2.2, this]
      rfl

/-- Witness for C9 amended: the no-option construction and the
forward default directions at the empty option list. -/
theorem c9_witness :
    New "k" [] = .ok ⟨"k", ⟨"api.instantly.ai", 1,
      some (ratelimitNew 10 timeSecond), some HttpClient.std⟩⟩
    ∧ (([] : List GoOption).all fun x => !x.isHostOpt) = true
    ∧ (New "k" [] = .ok ⟨"k", ⟨"api.instantly.ai", 1,
        some (ratelimitNew 10 timeSecond), some HttpClient.std⟩⟩ →
       (⟨"k", ⟨"api.instantly.ai", 1, some (ratelimitNew 10 timeSecond),
          some HttpClient.std⟩⟩ : Client).options.host = "api.instantly.ai") :=
  ⟨(c9_defaults "k").1, rfl,
   fun h => ((c9_defaults "k").2 [] _ h).1 rfl⟩

/-- C10: DeleteLeadVariables posts to lead/data/update — the very path
UpdateLeadVariable posts to, not a delete-specific endpoint — and for
matching campaign and email its payload binds every key other than variables
exactly as an UpdateLeadVariable payload does, while variables holds a JSON
array of names instead of a JSON object; the wire bodies (payload plus the
injected api_key) accordingly differ only at variables. -/
theorem c10_delete_shares_update_endpoint (campaignId email : String)
    (vars : List (String × GoJson)) (names : List String) (k : String)
    (hk : k ≠ "variables") (c : Client) :
    deleteLeadVariablesPath = "lead/data/update"
    ∧ deleteLeadVariablesPath = updateLeadVariablePath
    ∧ goLookup (objFields
          (deleteLeadVariablesPayload campaignId email names)) k =
        goLookup (objFields
          (updateLeadVariablePayload campaignId email vars)) k
    ∧ goLookup (objFields
          (deleteLeadVariablesPayload campaignId email names)) "variables" =
        some (.arr (names.map GoJson.str))
    ∧ goLookup (objFields
          (updateLeadVariablePayload campaignId email vars)) "variables" =
        some (.obj vars)
    ∧ c.postWireBody (deleteLeadVariablesPayload campaignId email names) =
        .ok (.obj [("campaign_id", .str campaignId), ("email", .str email),
          ("variables", .arr (names.map GoJson.str)),
          ("api_key", .str c.apiKey)])
    ∧ c.postWireBody (updateLeadVariablePayload campaignId email vars) =
        .ok (.obj [("campaign_id", .str campaignId), ("email", .str email),
          ("variables", .obj vars), ("api_key", .str c.apiKey)]) := by
  have hk2 : ¬ ("variables" : String) = k := fun h => hk h.symm
  refine ⟨rfl, rfl, ?_, rfl, rfl, rfl, rfl⟩
  simp [deleteLeadVariablesPayload, updateLeadVariablePayload, objFields,
    goLookup, hk2]

/-- Witness for C10 at concrete arguments and the key email. -/
theorem c10_witness :
    ("email" : String) ≠ "variables"
    ∧ deleteLeadVariablesPath = updateLeadVariablePath
    ∧ goLookup (objFields
          (deleteLeadVariablesPayload "c1" "a@b.co" ["x"])) "email" =
        goLookup (objFields
          (updateLeadVariablePayload "c1" "a@b.co" [("x", .num 1)])) "email" :=
  ⟨by decide,
   (c10_delete_shares_update_endpoint "c1" "a@b.co" [("x", .num 1)] ["x"]
     "email" (by decide) cW).2.1,
   (c10_delete_shares_update_endpoint "c1" "a@b.co" [("x", .num 1)] ["x"]
     "email" (by decide) cW).2.2.1⟩
